import Mathlib

/-!
Verification development for the `room` watch-party client.

This file gives a shallow embedding of the client's resilient websocket
channel and of the feature modules the specification talks about:

* `Json`, `Json.render`, `Json.parse` — a model of `serde_json` values and
  of their wire form.  Objects are kept in ascending key order, mirroring
  `serde_json::Map`'s default `BTreeMap` representation; JSON number
  literals are modelled as integers (float literals are outside the model,
  none of the program's message shapes uses them).
* `WrappingWsMessage` with `encodeWrapping` / `decodeWrapping` — the outer
  message envelope from `src/websocket/ws.rs`.
* `InternalWebSocket` with its event handlers — the connection engine from
  `src/websocket/ws.rs`, with transport callbacks modelled as explicit
  events and all observable actions (transport opens, callback
  invocations, console logs) collected in an `Effect` trace.  Callbacks
  themselves are identified by numeric ids.
* `MediaPlayer.update` and `ChatRoom.update` — the feature-module state
  transitions from `src/player.rs` and `src/chat.rs`.  A Rust panic
  (a failed `unwrap`, or `VecDeque::rotate_left(1)` on an empty deque)
  is modelled as the result `none`.
-/

/-- A JSON value, mirroring `serde_json::Value`.  Object fields are kept in
strictly ascending key order with unique keys, matching the `BTreeMap`
used by `serde_json::Map` in its default configuration.  Numbers are
modelled as integers: no message shape of this program carries a float. -/
inductive Json where
  | null
  | bool (b : Bool)
  | num (n : Int)
  | str (s : String)
  | arr (items : List Json)
  | obj (fields : List (String × Json))

namespace Json

/-- Lexicographic comparison of character lists by code point; on UTF-8
encoded text this coincides with the byte-wise `Ord` that Rust's
`BTreeMap<String, _>` uses. -/
def charListLt : List Char → List Char → Bool
  | _, [] => false
  | [], _ => true
  | a :: as, b :: bs =>
    if a.toNat = b.toNat then charListLt as bs
    else decide (a.toNat < b.toNat)

/-- Key order of the object map: `String`'s lexicographic order. -/
def strLt (a b : String) : Bool := charListLt a.data b.data

/-- Inserts a field into a sorted field list, replacing an existing entry
with the same key — the semantics of `BTreeMap::insert`. -/
def insertField (key : String) (v : Json) : List (String × Json) → List (String × Json)
  | [] => [(key, v)]
  | (k, w) :: rest =>
    if strLt key k then (key, v) :: (k, w) :: rest
    else if key = k then (key, v) :: rest
    else (k, w) :: insertField key v rest

/-- Looks up a field by key in a field list — `BTreeMap::get`. -/
def lookupField (key : String) : List (String × Json) → Option Json
  | [] => none
  | (k, w) :: rest => if k = key then some w else lookupField key rest

/-- Escapes one character the way `serde_json` does when printing a JSON
string: quote, backslash and the named control characters get two-character
escapes, other control characters get a `\u00XX` escape. -/
def escapeChar (c : Char) : String :=
  if c = '"' then "\\\""
  else if c = '\\' then "\\\\"
  else if c = '\n' then "\\n"
  else if c = '\r' then "\\r"
  else if c = '\t' then "\\t"
  else if c.toNat < 0x20 then
    let hexDigit (n : Nat) : Char := if n < 10 then Char.ofNat (48 + n) else Char.ofNat (87 + n)
    String.mk ['\\', 'u', '0', '0', hexDigit (c.toNat / 16), hexDigit (c.toNat % 16)]
  else String.mk [c]

/-- Prints the body of a JSON string with escaping. -/
def escapeString (s : String) : String :=
  String.join (s.data.map escapeChar)

mutual

/-- Prints a JSON value in `serde_json::to_string`'s compact format. -/
def render : Json → String
  | .null => "null"
  | .bool true => "true"
  | .bool false => "false"
  | .num n => toString n
  | .str s => "\"" ++ escapeString s ++ "\""
  | .arr items => "[" ++ renderItems items ++ "]"
  | .obj fields => "\x7b" ++ renderFields fields ++ "\x7d"

/-- Prints array elements separated by commas. -/
def renderItems : List Json → String
  | [] => ""
  | [x] => render x
  | x :: y :: rest => render x ++ "," ++ renderItems (y :: rest)

/-- Prints object fields separated by commas. -/
def renderFields : List (String × Json) → String
  | [] => ""
  | [(k, v)] => "\"" ++ escapeString k ++ "\":" ++ render v
  | (k, v) :: f :: rest =>
    "\"" ++ escapeString k ++ "\":" ++ render v ++ "," ++ renderFields (f :: rest)

end

/-- Tests for the JSON whitespace characters accepted between tokens. -/
def isJsonWs (c : Char) : Bool :=
  c = ' ' || c = '\t' || c = '\n' || c = '\r'

/-- Skips leading whitespace. -/
def skipWs : List Char → List Char
  | [] => []
  | c :: rest => if isJsonWs c then skipWs rest else c :: rest

/-- Parses the remainder of a JSON string literal after the opening quote.
Handles the two-character escapes produced by the printer; a `\u` escape or
an unterminated string fails.  Returns the string and the input following
the closing quote. -/
def parseStringRest : List Char → Option (String × List Char)
  | [] => none
  | '"' :: rest => some ("", rest)
  | '\\' :: e :: rest =>
    (if e = 'n' then some '\n'
     else if e = 't' then some '\t'
     else if e = 'r' then some '\r'
     else if e = '"' then some '"'
     else if e = '/' then some '/'
     else if e = '\\' then some '\\'
     else none).bind fun c =>
      (parseStringRest rest).map fun (p : String × List Char) =>
        (String.mk (c :: p.1.data), p.2)
  | c :: rest =>
    if c.toNat < 0x20 then none
    else
      (parseStringRest rest).map fun (p : String × List Char) =>
        (String.mk (c :: p.1.data), p.2)

/-- Parses a run of decimal digits into a natural number, returning the
remaining input; fails when no digit is present. -/
def parseDigits (acc : Nat) (seen : Bool) : List Char → Option (Nat × List Char)
  | [] => if seen then some (acc, []) else none
  | c :: rest =>
    if c.isDigit then parseDigits (acc * 10 + (c.toNat - 48)) true rest
    else if seen then some (acc, c :: rest) else none

mutual

/-- Parses one JSON value from the input (fuelled on nesting depth).
Only integer number literals are accepted; see the note on `Json`. -/
def parseValue : Nat → List Char → Option (Json × List Char)
  | 0, _ => none
  | Nat.succ fuel, input =>
    match skipWs input with
    | 'n' :: 'u' :: 'l' :: 'l' :: rest => some (.null, rest)
    | 't' :: 'r' :: 'u' :: 'e' :: rest => some (.bool true, rest)
    | 'f' :: 'a' :: 'l' :: 's' :: 'e' :: rest => some (.bool false, rest)
    | '"' :: rest => (parseStringRest rest).map fun (s, r) => (.str s, r)
    | '[' :: rest =>
      (match skipWs rest with
       | ']' :: r => some (.arr [], r)
       | other => (parseItems fuel other).map fun (items, r) => (.arr items, r))
    | '\x7b' :: rest =>
      (match skipWs rest with
       | '\x7d' :: r => some (.obj [], r)
       | other =>
         (parseFields fuel other).map fun (fields, r) =>
           (.obj (fields.foldl (fun acc kv => insertField kv.1 kv.2 acc) []), r))
    | '-' :: rest => (parseDigits 0 false rest).map fun (n, r) => (.num (-(n : Int)), r)
    | c :: rest =>
      if c.isDigit then (parseDigits (c.toNat - 48) true rest).map fun (n, r) => (.num (n : Int), r)
      else none
    | [] => none

/-- Parses the elements of a non-empty JSON array up to and including the
closing bracket. -/
def parseItems : Nat → List Char → Option (List Json × List Char)
  | 0, _ => none
  | Nat.succ fuel, input =>
    (parseValue fuel input).bind fun (v, rest) =>
      match skipWs rest with
      | ',' :: r => (parseItems fuel r).map fun (items, r2) => (v :: items, r2)
      | ']' :: r => some ([v], r)
      | _ => none

/-- Parses the fields of a non-empty JSON object up to and including the
closing brace, returning them in document order; the caller folds them into
a sorted map with `insertField`, so a duplicate key keeps the later value,
as sequential `BTreeMap::insert` calls do in `serde_json`. -/
def parseFields : Nat → List Char → Option (List (String × Json) × List Char)
  | 0, _ => none
  | Nat.succ fuel, input =>
    match skipWs input with
    | '"' :: rest =>
      (parseStringRest rest).bind fun (key, r1) =>
        match skipWs r1 with
        | ':' :: r2 =>
          (parseValue fuel r2).bind fun (v, r3) =>
            match skipWs r3 with
            | ',' :: r4 =>
              (parseFields fuel r4).map fun (fields, r5) => ((key, v) :: fields, r5)
            | '\x7d' :: r4 => some ([(key, v)], r4)
            | _ => none
        | _ => none
    | _ => none

end

/-- Parses a complete JSON document: one value followed only by
whitespace, mirroring `serde_json::from_str`'s insistence that the whole
input is consumed. -/
def parse (s : String) : Option Json :=
  (parseValue (s.length + 1) s.data).bind fun (v, rest) =>
    match skipWs rest with
    | [] => some v
    | _ => none

end Json

/-- Opcodes are plain machine integers: `pub type OpCode = usize` in
`src/opcodes.rs`. -/
abbrev OpCode : Type := Nat

/-- Opcode constant `OP_PLAY` from `src/opcodes.rs`. -/
def OP_PLAY : OpCode := 0
/-- Opcode constant `OP_PAUSE` from `src/opcodes.rs`. -/
def OP_PAUSE : OpCode := 1
/-- Opcode constant `OP_SEEK` from `src/opcodes.rs`. -/
def OP_SEEK : OpCode := 2
/-- Opcode constant `OP_NEXT` from `src/opcodes.rs`. -/
def OP_NEXT : OpCode := 3
/-- Opcode constant `OP_PREV` from `src/opcodes.rs`. -/
def OP_PREV : OpCode := 4
/-- Opcode constant `OP_MESSAGE` from `src/opcodes.rs`. -/
def OP_MESSAGE : OpCode := 5
/-- Opcode constant `OP_TIME_CHECK` from `src/opcodes.rs`. -/
def OP_TIME_CHECK : OpCode := 6
/-- Opcode constant `OP_ADD_TRACK` from `src/opcodes.rs`. -/
def OP_ADD_TRACK : OpCode := 7
/-- Opcode constant `OP_REMOVE_TRACK` from `src/opcodes.rs`. -/
def OP_REMOVE_TRACK : OpCode := 8
/-- Opcode constant `OP_SYNC_TRACKS` from `src/opcodes.rs`. -/
def OP_SYNC_TRACKS : OpCode := 9
/-- Opcode constant `OP_SET_BULK_TRACKS` from `src/opcodes.rs`. -/
def OP_SET_BULK_TRACKS : OpCode := 10

/-- The outer wire envelope `WrappingWsMessage` from `src/websocket/ws.rs`:
an opcode together with an optional payload. -/
structure WrappingWsMessage where
  opcode : OpCode
  payload : Option Json

/-- Serialization of `WrappingWsMessage` (the serde `Serialize` derive):
fields are written in declaration order, a `None` payload prints as
`null`. -/
def encodeWrapping (m : WrappingWsMessage) : String :=
  Json.render (Json.obj [("opcode", Json.num (Int.ofNat m.opcode)),
                         ("payload", match m.payload with
                                     | some v => v
                                     | none => Json.null)])

/-- Deserialization of `WrappingWsMessage` from a JSON value (the serde
`Deserialize` derive): `opcode` must be a non-negative integer, a missing
or `null` `payload` becomes `none`, unknown fields are ignored. -/
def decodeWrappingJson : Json → Option WrappingWsMessage
  | Json.obj fields =>
    match Json.lookupField "opcode" fields with
    | some (Json.num n) =>
      if 0 ≤ n then
        some { opcode := n.toNat,
               payload := match Json.lookupField "payload" fields with
                          | none => none
                          | some Json.null => none
                          | some v => some v }
      else none
    | _ => none
  | _ => none

/-- The composite `serde_json::from_str::<WrappingWsMessage>` used by the
engine's `on_message`. -/
def decodeWrapping (s : String) : Option WrappingWsMessage :=
  (Json.parse s).bind decodeWrappingJson

/-- Connection status values reported to subscribers
(`WebsocketStatus` in `src/websocket/identifiers.rs`). -/
inductive WebsocketStatus where
  | Connect
  | Disconnect
  | ClosedPermanently
deriving DecidableEq

/-- An inbound message as handed to subscriber callbacks
(`WebsocketMessage` in `src/websocket/identifiers.rs`). -/
inductive WebsocketMessage where
  | Empty
  | Payload (value : Json)

/-- Converts the envelope's optional payload to the `WebsocketMessage`
handed to subscribers, as `on_message` does: a present payload becomes
`Payload`, an absent one becomes `Empty`. -/
def payloadToWsMessage : Option Json → WebsocketMessage
  | some payload => WebsocketMessage.Payload payload
  | none => WebsocketMessage.Empty

/-- Consumes a `WebsocketMessage`, decoding a `Payload` with the given
payload decoder (`WebsocketMessage::unwrap_and_into::<T>`).  The Rust
method calls `.unwrap()` on the serde result, panicking when the payload
does not have shape `T`; that panic is the outer `none`.  The inner
`Option` is the method's own return value (`None` exactly on `Empty`). -/
def WebsocketMessage.unwrap_and_into (dec : Json → Option α) :
    WebsocketMessage → Option (Option α)
  | WebsocketMessage.Payload value => (dec value).map some
  | WebsocketMessage.Empty => some none

/-- Callbacks are identified by numeric ids; invoking one is recorded as
an `Effect` rather than executed. -/
abbrev CallbackId : Type := Nat

/-- One subscriber group (`Subscriber` in `src/websocket/identifiers.rs`):
an optional status callback and a map from opcode to message callback.
The Rust map is an `FxHashMap`; since `emit_message` only ever looks keys
up, it is embedded as an association list with unique keys. -/
structure Subscriber where
  on_ws_status : Option CallbackId
  on_ws_message : List (OpCode × CallbackId)

/-- Inserts into an opcode-keyed association list, replacing the entry for
an existing key and appending a new key — `FxHashMap::insert`. -/
def insertCallback (opcode : OpCode) (cb : CallbackId) :
    List (OpCode × CallbackId) → List (OpCode × CallbackId)
  | [] => [(opcode, cb)]
  | (k, v) :: rest =>
    if k = opcode then (opcode, cb) :: rest
    else (k, v) :: insertCallback opcode cb rest

/-- Looks up the callback bound to an opcode — `FxHashMap::get`. -/
def lookupCallback (opcode : OpCode) : List (OpCode × CallbackId) → Option CallbackId
  | [] => none
  | (k, v) :: rest => if k = opcode then some v else lookupCallback opcode rest

/-- `Subscriber::new`. -/
def Subscriber.new : Subscriber := { on_ws_status := none, on_ws_message := [] }

/-- `Subscriber::set_status_cb`: last registration wins. -/
def Subscriber.set_status_cb (sub : Subscriber) (cb : CallbackId) : Subscriber :=
  { sub with on_ws_status := some cb }

/-- `Subscriber::subscribe`: binds an opcode to a callback, replacing any
previous binding for that opcode. -/
def Subscriber.subscribe (sub : Subscriber) (opcode : OpCode) (cb : CallbackId) : Subscriber :=
  { sub with on_ws_message := insertCallback opcode cb sub.on_ws_message }

/-- Observable actions of the connection engine: opening the underlying
transport (`bind::start_websocket`), invoking a status or message
callback (`Callback::emit`), and logging (`ConsoleService::log`). -/
inductive Effect where
  | openTransport (url : String)
  | statusEmit (cb : CallbackId) (status : WebsocketStatus)
  | messageEmit (cb : CallbackId) (opcode : OpCode) (msg : WebsocketMessage)
  | log (text : String)

/-- The engine state (`InternalWebSocket` in `src/websocket/ws.rs`).  The
`internal : Option JsValue` socket handle is modelled by whether a socket
is held; the four stored JS closures carry no state and are omitted.  The
subscriber table is an `FxHashMap<usize, Subscriber>` in Rust; it is
embedded as an association list in insertion order with unique keys (note
that an `FxHashMap` does not itself promise any iteration order).  The two
`SegQueue` registration queues are lists in FIFO order. -/
structure InternalWebSocket where
  url : String
  internal : Bool
  connecting_first : Bool
  retry_attempt : Nat
  subscribers : List (Nat × Subscriber)
  message_updates : List (Nat × OpCode × CallbackId)
  status_updates : List (Nat × CallbackId)

namespace InternalWebSocket

/-- Registers a status callback for a group id in the subscriber table:
mutate the existing group, or insert a fresh `Subscriber` for a new id
(the body of the loop in `check_status_updates`). -/
def registerStatus : List (Nat × Subscriber) → Nat → CallbackId → List (Nat × Subscriber)
  | [], id, cb => [(id, Subscriber.new.set_status_cb cb)]
  | (i, sub) :: rest, id, cb =>
    if i = id then (i, sub.set_status_cb cb) :: rest
    else (i, sub) :: registerStatus rest id cb

/-- Registers a message callback for a group id and opcode in the
subscriber table (the body of the loop in `check_message_updates`). -/
def registerMessage : List (Nat × Subscriber) → Nat → OpCode → CallbackId → List (Nat × Subscriber)
  | [], id, opcode, cb => [(id, Subscriber.new.subscribe opcode cb)]
  | (i, sub) :: rest, id, opcode, cb =>
    if i = id then (i, sub.subscribe opcode cb) :: rest
    else (i, sub) :: registerMessage rest id opcode cb

/-- Drains the pending status-registration queue completely, FIFO
(`InternalWebSocket::check_status_updates`). -/
def check_status_updates (s : InternalWebSocket) : InternalWebSocket :=
  { s with
    subscribers := s.status_updates.foldl (fun subs r => registerStatus subs r.1 r.2) s.subscribers,
    status_updates := [] }

/-- Drains the pending message-registration queue completely, FIFO
(`InternalWebSocket::check_message_updates`). -/
def check_message_updates (s : InternalWebSocket) : InternalWebSocket :=
  { s with
    subscribers := s.message_updates.foldl
      (fun subs r => registerMessage subs r.1 r.2.1 r.2.2) s.subscribers,
    message_updates := [] }

/-- Broadcasts a status to every group that has a status callback,
skipping the others (`InternalWebSocket::send_all_status`). -/
def send_all_status (s : InternalWebSocket) (status : WebsocketStatus) : List Effect :=
  s.subscribers.filterMap fun p =>
    p.2.on_ws_status.map fun cb => Effect.statusEmit cb status

/-- Attempts to reopen the transport (`InternalWebSocket::reconnect`):
a no-op while `connecting_first` is still set, otherwise re-invokes
`bind::start_websocket` with the stored callbacks and keeps the new
socket. -/
def reconnect (s : InternalWebSocket) : InternalWebSocket × List Effect :=
  if s.connecting_first then (s, [])
  else ({ s with internal := true }, [Effect.openTransport s.url])

/-- Handler for the transport `onopen` event
(`InternalWebSocket::on_connect`): reset the retry counter, flush pending
status registrations, broadcast `Connect`. -/
def on_connect (s : InternalWebSocket) : InternalWebSocket × List Effect :=
  let s1 := check_status_updates { s with retry_attempt := 0 }
  (s1, send_all_status s1 WebsocketStatus.Connect)

/-- Handler for the transport `onclose` event
(`InternalWebSocket::on_disconnect`): with `retry_attempt > 3` the status
is `ClosedPermanently` and no reconnect happens; otherwise the counter is
incremented, `reconnect` runs, and the status is `Disconnect`.  Either
way pending status registrations are flushed before the broadcast. -/
def on_disconnect (s : InternalWebSocket) : InternalWebSocket × List Effect :=
  if s.retry_attempt > 3 then
    let s1 := check_status_updates s
    (s1, send_all_status s1 WebsocketStatus.ClosedPermanently)
  else
    let (s1, eff) := reconnect { s with retry_attempt := s.retry_attempt + 1 }
    let s2 := check_status_updates s1
    (s2, eff ++ send_all_status s2 WebsocketStatus.Disconnect)

/-- Handler for the transport `onerror` event
(`InternalWebSocket::on_error`): records that the first connection attempt
is over.  This is the only place `connecting_first` is ever cleared. -/
def on_error (s : InternalWebSocket) : InternalWebSocket × List Effect :=
  ({ s with connecting_first := false }, [])

/-- Handler for the transport `onmessage` event
(`InternalWebSocket::on_message`): decode the envelope; on failure log
and return with nothing else done.  On success flush pending message
registrations and hand the message to every subscriber, each of which
invokes its callback bound to the message's opcode if it has one
(`Subscriber::emit_message`). -/
def on_message (s : InternalWebSocket) (raw : String) : InternalWebSocket × List Effect :=
  match decodeWrapping raw with
  | none => (s, [Effect.log ("Failed to parse incoming message! " ++ raw)])
  | some m =>
    let wmsg := payloadToWsMessage m.payload
    let s1 := check_message_updates s
    (s1, s1.subscribers.filterMap fun p =>
      (lookupCallback m.opcode p.2.on_ws_message).map fun cb =>
        Effect.messageEmit cb m.opcode wmsg)

/-- Builds the freshly connected engine state
(`InternalWebSocket::connect`): empty subscriber table and queues,
`connecting_first` set, retry counter zero, and one initial transport
open. -/
def connect (url : String) : InternalWebSocket × List Effect :=
  ({ url := url, internal := true, connecting_first := true, retry_attempt := 0,
     subscribers := [], message_updates := [], status_updates := [] },
   [Effect.openTransport url])

end InternalWebSocket

/-- The four transport event hooks wired up in
`InternalWebSocket::connect`, as explicit events. -/
inductive WsEvent where
  | opened
  | closed
  | errored
  | message (raw : String)

/-- Dispatches one transport event to its handler. -/
def stepWs (s : InternalWebSocket) : WsEvent → InternalWebSocket × List Effect
  | WsEvent.opened => s.on_connect
  | WsEvent.closed => s.on_disconnect
  | WsEvent.errored => s.on_error
  | WsEvent.message raw => s.on_message raw

/-- Runs a sequence of transport events, concatenating the effect
traces. -/
def runWs (s : InternalWebSocket) : List WsEvent → InternalWebSocket × List Effect
  | [] => (s, [])
  | e :: es =>
    let (s1, eff) := stepWs s e
    let (s2, effs) := runWs s1 es
    (s2, eff ++ effs)

/-- Extracts the sequence of broadcast statuses from an effect trace (one
entry per status callback invocation). -/
def statusesOf (effs : List Effect) : List WebsocketStatus :=
  effs.filterMap fun e =>
    match e with
    | Effect.statusEmit _ st => some st
    | _ => none

/-- Counts the transport-open effects in a trace. -/
def openCount (effs : List Effect) : Nat :=
  (effs.filter fun e =>
    match e with
    | Effect.openTransport _ => true
    | _ => false).length

/-- A queued video track (`Video` in `src/player.rs`). -/
structure Video where
  title : String
  url : String

/-- The payload of `OP_SET_BULK_TRACKS` (`BulkVideos` in
`src/player.rs`). -/
structure BulkVideos where
  videos : List Video

/-- Serialization of a `Video` by `serde_json::to_value` (fields end up in
key order in the `BTreeMap`-backed object; `title` < `url` already). -/
def encodeVideo (v : Video) : Json :=
  Json.obj [("title", Json.str v.title), ("url", Json.str v.url)]

/-- Deserialization of a `Video` from a JSON value: an object with string
fields `title` and `url`; unknown fields are ignored, a missing or
mistyped field is an error. -/
def decodeVideo : Json → Option Video
  | Json.obj fields =>
    match Json.lookupField "title" fields, Json.lookupField "url" fields with
    | some (Json.str title), some (Json.str url) => some { title := title, url := url }
    | _, _ => none
  | _ => none

/-- Serialization of `BulkVideos` by `serde_json::to_value`. -/
def encodeBulkVideos (b : BulkVideos) : Json :=
  Json.obj [("videos", Json.arr (b.videos.map encodeVideo))]

/-- Decodes every element of a JSON array as a `Video`. -/
def decodeVideoList : List Json → Option (List Video)
  | [] => some []
  | j :: rest =>
    (decodeVideo j).bind fun v => (decodeVideoList rest).map fun vs => v :: vs

/-- Deserialization of `BulkVideos` from a JSON value: an object whose
`videos` field is an array of `Video` objects. -/
def decodeBulkVideos : Json → Option BulkVideos
  | Json.obj fields =>
    match Json.lookupField "videos" fields with
    | some (Json.arr items) => (decodeVideoList items).map fun vs => { videos := vs }
    | _ => none
  | _ => none

/-- The events of the media player component (`MediaPlayerEvent` in
`src/player.rs`).  `next` and `previous` carry the also-publish flag. -/
inductive MediaPlayerEvent where
  | next (emit : Bool)
  | previous (emit : Bool)
  | addVideo (msg : WebsocketMessage)
  | removeVideo
  | syncTracks
  | setBulkTracks (msg : WebsocketMessage)

/-- An outbound publish from a feature module: `emit_event(room_id, msg)`
in `src/utils.rs`, an HTTP PUT of the envelope to the room's relay
endpoint, fire-and-forget. -/
structure PublishCall where
  room_id : String
  msg : WrappingWsMessage

/-- The media player component state (`MediaPlayer` in `src/player.rs`).
The `VecDeque<Video>` queue is a list with the deque's front first; the
component link and websocket handle carry no queue state and are
omitted. -/
structure MediaPlayer where
  videos : List Video
  room_id : String

/-- Models `VecDeque::rotate_left(1)`: the front element moves to the
back.  The Rust call panics when `1 > len`, i.e. exactly on the empty
deque; the panic is `none`. -/
def rotateLeftOne : List Video → Option (List Video)
  | [] => none
  | v :: vs => some (vs ++ [v])

/-- Models `VecDeque::rotate_right(1)`: the back element moves to the
front, panicking (`none`) on the empty deque. -/
def rotateRightOne (l : List Video) : Option (List Video) :=
  match l.reverse with
  | [] => none
  | v :: vs => some (v :: vs.reverse)

/-- State transition of the media player (`MediaPlayer::update` in
`src/player.rs`).  The result is the new state, the outbound publish
calls issued (via `start_future(emit_event(..))`), and the returned
`ShouldRender` flag; `none` is a panic.  `serde_json::to_value` of a
`BulkVideos` cannot fail, so the `SyncTracks` error branch is dead. -/
def MediaPlayer.update (s : MediaPlayer) :
    MediaPlayerEvent → Option (MediaPlayer × List PublishCall × Bool)
  | MediaPlayerEvent.next emit =>
    if emit then
      some (s, [{ room_id := s.room_id, msg := { opcode := OP_NEXT, payload := none } }], true)
    else
      (rotateLeftOne s.videos).map fun vs => ({ s with videos := vs }, [], true)
  | MediaPlayerEvent.previous emit =>
    if emit then
      some (s, [{ room_id := s.room_id, msg := { opcode := OP_PREV, payload := none } }], true)
    else
      (rotateRightOne s.videos).map fun vs => ({ s with videos := vs }, [], true)
  | MediaPlayerEvent.addVideo msg =>
    (msg.unwrap_and_into decodeVideo).bind fun r =>
      r.map fun video => ({ s with videos := s.videos ++ [video] }, [], true)
  | MediaPlayerEvent.removeVideo =>
    some ({ s with videos := s.videos.drop 1 }, [], true)
  | MediaPlayerEvent.syncTracks =>
    some ({ s with videos := [] },
          [{ room_id := s.room_id,
             msg := { opcode := OP_SET_BULK_TRACKS,
                      payload := some (encodeBulkVideos { videos := s.videos }) } }],
          false)
  | MediaPlayerEvent.setBulkTracks msg =>
    (msg.unwrap_and_into decodeBulkVideos).bind fun r =>
      r.map fun bulk =>
        if s.videos.length > bulk.videos.length then (s, [], false)
        else ({ s with videos := bulk.videos }, [], true)

/-- A chat message (`Message` in `src/chat.rs`). -/
structure ChatMessage where
  username : String
  avatar : String
  content : String

/-- Deserialization of a chat `Message` from a JSON value: an object with
string fields `username`, `avatar` and `content`. -/
def decodeChatMessage : Json → Option ChatMessage
  | Json.obj fields =>
    match Json.lookupField "username" fields, Json.lookupField "avatar" fields,
          Json.lookupField "content" fields with
    | some (Json.str username), some (Json.str avatar), some (Json.str content) =>
      some { username := username, avatar := avatar, content := content }
    | _, _, _ => none
  | _ => none

/-- The chat display component state (`ChatRoom` in `src/chat.rs`). -/
structure ChatRoom where
  room_id : String
  messages : List ChatMessage

/-- State transition of the chat room (`ChatRoom::update` in
`src/chat.rs`): an `Empty` message is ignored, a payload is decoded with
`serde_json::from_value(..).unwrap()` — a shape mismatch panics
(`none`) — and appended to the message list. -/
def ChatRoom.update (s : ChatRoom) : WebsocketMessage → Option (ChatRoom × Bool)
  | WebsocketMessage.Empty => some (s, false)
  | WebsocketMessage.Payload value =>
    (decodeChatMessage value).map fun m =>
      ({ s with messages := s.messages ++ [m] }, true)

/-- Looks up a subscriber group by id in the subscriber table
(`FxHashMap::get` on `subscribers`). -/
def lookupGroup (g : Nat) : List (Nat × Subscriber) → Option Subscriber
  | [] => none
  | (i, sub) :: rest => if i = g then some sub else lookupGroup g rest

/-- The message callback an engine state has bound for a group and an
opcode, when any. -/
def boundCallback (s : InternalWebSocket) (g : Nat) (op : OpCode) : Option CallbackId :=
  match lookupGroup g s.subscribers with
  | some sub => lookupCallback op sub.on_ws_message
  | none => none

/-- The room's websocket url (shape of `settings::get_ws_url`). -/
def wsUrl : String := "wss://gateway.spooderfy.com/ws/r"

/-- Engine state straight after `WsHandler::connect`, before any transport
event. -/
def engineStart : InternalWebSocket := (InternalWebSocket.connect wsUrl).1

/-- Engine state after `subscribe_to_status(0, cb)` has pushed one pending
status registration (callback id 9) that the engine has not yet
drained. -/
def engineWithStatusSub : InternalWebSocket :=
  { engineStart with status_updates := [(0, 9)] }

/-- Engine state during the very first connection attempt, with one group
already holding a status callback (id 7): `connecting_first` is still
set and no transport event has arrived. -/
def engineFirstAttempt : InternalWebSocket :=
  { engineStart with subscribers := [(0, { on_ws_status := some 7, on_ws_message := [] })] }

/-- One abnormal transport closure as a browser delivers it: the `onerror`
hook fires, then the `onclose` hook. -/
def abnormalClose : List WsEvent := [WsEvent.errored, WsEvent.closed]

/-- A successful open followed by `n` abnormal closures. -/
def openThenAbnormalCloses (n : Nat) : List WsEvent :=
  WsEvent.opened :: (List.replicate n abnormalClose).flatten

/-- Engine state whose pending message-registration queue holds the calls
`subscribe_to_message(g, op, cb)` for the callbacks `cbs` in order. -/
def queuedRegs (g : Nat) (op : OpCode) (cbs : List CallbackId) : InternalWebSocket :=
  { engineStart with message_updates := cbs.map fun cb => (g, op, cb) }

/-- The wire text of an envelope with opcode 5 and no payload. -/
def rawOpcode5 : String := "\x7b\"opcode\":5\x7d"

/-- The concrete chat payload from the round-trip property, as the
canonical `serde_json` value (object fields in key order). -/
def messagePayload : Json :=
  Json.obj [("avatar", Json.str "b"), ("content", Json.str "c"), ("username", Json.str "a")]

/-- The envelope with opcode 5 (`OP_MESSAGE`) carrying
`messagePayload`. -/
def messageEnvelope : WrappingWsMessage :=
  { opcode := OP_MESSAGE, payload := some messagePayload }

/-- A media player with an empty queue. -/
def playerEmpty : MediaPlayer := { videos := [], room_id := "r" }

/-- A media player with two queued tracks. -/
def playerTwo : MediaPlayer :=
  { videos := [{ title := "t1", url := "u1" }, { title := "t2", url := "u2" }], room_id := "r" }

/-- A chat room with no messages yet. -/
def chatEmpty : ChatRoom := { room_id := "r", messages := [] }

/-- An `ADD_TRACK` payload missing the required `url` field. -/
def badVideoJson : Json := Json.obj [("title", Json.str "t")]

/-- A `MESSAGE` payload missing the required `avatar` and `content`
fields. -/
def badChatJson : Json := Json.obj [("username", Json.str "x")]

/-- A one-element `SET_BULK_TRACKS` payload value. -/
def bulkOne : BulkVideos := { videos := [{ title := "a", url := "b" }] }

theorem lookupCallback_insertCallback_self (op : OpCode) (cb : CallbackId)
    (m : List (OpCode × CallbackId)) :
    lookupCallback op (insertCallback op cb m) = some cb := by
  induction m with
  | nil => simp [insertCallback, lookupCallback]
  | cons kv rest ih =>
    obtain ⟨k, v⟩ := kv
    by_cases hk : k = op
    · simp [insertCallback, hk, lookupCallback]
    · simp [insertCallback, hk, lookupCallback, ih]

theorem foldl_subscribe_getLast (op : OpCode) (cbs : List CallbackId) (c : CallbackId)
    (h : cbs.getLast? = some c) (sub : Subscriber) :
    lookupCallback op
      ((cbs.foldl (fun su cb => su.subscribe op cb) sub).on_ws_message) = some c := by
  induction cbs generalizing sub with
  | nil => simp at h
  | cons x xs ih =>
    cases xs with
    | nil =>
      simp [List.getLast?] at h
      subst h
      simp [Subscriber.subscribe, lookupCallback_insertCallback_self]
    | cons y ys =>
      have h' : (y :: ys).getLast? = some c := by
        simpa [List.getLast?_cons_cons] using h
      simpa using ih h' (sub.subscribe op x)

theorem foldl_registerMessage_single (g : Nat) (op : OpCode) (cbs : List CallbackId)
    (sub : Subscriber) :
    (cbs.map fun cb => (g, op, cb)).foldl
        (fun subs r => InternalWebSocket.registerMessage subs r.1 r.2.1 r.2.2) [(g, sub)]
      = [(g, cbs.foldl (fun su cb => su.subscribe op cb) sub)] := by
  induction cbs generalizing sub with
  | nil => rfl
  | cons x xs ih => simp [InternalWebSocket.registerMessage, ih]

theorem mem_send_all_status (s : InternalWebSocket) (st : WebsocketStatus) (e : Effect)
    (h : e ∈ InternalWebSocket.send_all_status s st) :
    ∃ cb, e = Effect.statusEmit cb st := by
  simp only [InternalWebSocket.send_all_status, List.mem_filterMap] at h
  obtain ⟨p, _, hp⟩ := h
  obtain ⟨cb, _, rfl⟩ := Option.map_eq_some'.mp hp
  exact ⟨cb, rfl⟩

/-- Claim C2: if the very first connection attempt closes abnormally
before the engine ever reached `Connected` — so `connecting_first` is
still set and the retry budget is not yet exceeded — the close handler
broadcasts `Disconnect` (after flushing pending status registrations) and
produces no transport-open effect: `reconnect` returns without re-invoking
`bind::start_websocket`. -/
theorem first_connect_close_no_reconnect (s : InternalWebSocket)
    (h1 : s.connecting_first = true) (h2 : s.retry_attempt ≤ 3) :
    s.on_disconnect =
      (InternalWebSocket.check_status_updates { s with retry_attempt := s.retry_attempt + 1 },
       InternalWebSocket.send_all_status
         (InternalWebSocket.check_status_updates { s with retry_attempt := s.retry_attempt + 1 })
         WebsocketStatus.Disconnect) ∧
    ∀ e ∈ s.on_disconnect.2, ∃ cb, e = Effect.statusEmit cb WebsocketStatus.Disconnect := by
  have hgt : ¬ s.retry_attempt > 3 := by omega
  have hmain : s.on_disconnect =
      (InternalWebSocket.check_status_updates { s with retry_attempt := s.retry_attempt + 1 },
       InternalWebSocket.send_all_status
         (InternalWebSocket.check_status_updates { s with retry_attempt := s.retry_attempt + 1 })
         WebsocketStatus.Disconnect) := by
    simp [InternalWebSocket.on_disconnect, hgt, InternalWebSocket.reconnect, h1]
  refine ⟨hmain, ?_⟩
  intro e he
  rw [hmain] at he
  exact mem_send_all_status _ _ _ he

/-- Witness for C2 at a concrete first-attempt state with one status
subscriber (callback id 7): the handler yields exactly one `Disconnect`
emission and the state with the retry counter at 1; in particular no
transport open. -/
theorem first_connect_close_no_reconnect_witness :
    engineFirstAttempt.on_disconnect =
      ({ engineFirstAttempt with retry_attempt := 1 },
       [Effect.statusEmit 7 WebsocketStatus.Disconnect]) :=
  (first_connect_close_no_reconnect engineFirstAttempt rfl (by decide)).1

/-- Counterexample to claim C1: after an initial successful connect, four
consecutive abnormal closes leave the engine at status `Disconnect` — the
fourth close does not reach `ClosedPermanently` — and the transport-open
primitive runs on all four closes, not only the first three. -/
theorem four_closes_no_permanent_close :
    statusesOf (runWs engineWithStatusSub (openThenAbnormalCloses 4)).2 =
      [WebsocketStatus.Connect, WebsocketStatus.Disconnect, WebsocketStatus.Disconnect,
       WebsocketStatus.Disconnect, WebsocketStatus.Disconnect] ∧
    openCount (runWs engineWithStatusSub (openThenAbnormalCloses 4)).2 = 4 := by
  constructor <;> rfl

/-- Amended claim C1: after an initial successful connect it takes five
consecutive abnormal closes to reach `ClosedPermanently`; the first four
each increment `retry_attempt` (to 1,2,3,4), broadcast `Disconnect` and
re-open the transport, while the fifth close broadcasts
`ClosedPermanently` and opens nothing further. -/
theorem five_closes_reach_permanent_close :
    statusesOf (runWs engineWithStatusSub (openThenAbnormalCloses 5)).2 =
      [WebsocketStatus.Connect, WebsocketStatus.Disconnect, WebsocketStatus.Disconnect,
       WebsocketStatus.Disconnect, WebsocketStatus.Disconnect,
       WebsocketStatus.ClosedPermanently] ∧
    openCount (runWs engineWithStatusSub (openThenAbnormalCloses 5)).2 = 4 ∧
    openCount (runWs engineWithStatusSub (openThenAbnormalCloses 4)).2 = 4 ∧
    (runWs engineWithStatusSub (openThenAbnormalCloses 5)).1.retry_attempt = 4 := by
  refine ⟨rfl, rfl, rfl, rfl⟩

/-- Claim C5: an inbound text frame that fails to decode as the outer
envelope is logged and dropped: the handler returns the state completely
unchanged (retry counter, `connecting_first`, subscriber table and both
registration queues included) with a single log effect — no status
change, no callback invocation, no transport action, and the handler
returns normally rather than terminating the session. -/
theorem malformed_frame_dropped (s : InternalWebSocket) (raw : String)
    (h : decodeWrapping raw = none) :
    s.on_message raw = (s, [Effect.log ("Failed to parse incoming message! " ++ raw)]) := by
  simp [InternalWebSocket.on_message, h]

/-- Witness for C5 at the frame "not json" against a first-attempt state
with a registered subscriber. -/
theorem malformed_frame_dropped_witness :
    engineFirstAttempt.on_message "not json" =
      (engineFirstAttempt, [Effect.log ("Failed to parse incoming message! " ++ "not json")]) :=
  malformed_frame_dropped engineFirstAttempt "not json" rfl

/-- Claim C3: queueing any non-empty sequence of
`subscribe_to_message(g, op, cb)` registrations for one group and opcode
and draining the queue leaves exactly the last callback bound for
`(g, op)`, and a subsequent dispatch of a frame with opcode `op` fires
that callback alone. -/
theorem last_registration_wins (g : Nat) (op : OpCode) (x : CallbackId) (xs : List CallbackId)
    (c : CallbackId) (hlast : (x :: xs).getLast? = some c)
    (raw : String) (pl : Option Json)
    (hdec : decodeWrapping raw = some { opcode := op, payload := pl }) :
    boundCallback (InternalWebSocket.check_message_updates (queuedRegs g op (x :: xs))) g op
      = some c ∧
    ((queuedRegs g op (x :: xs)).on_message raw).2 =
      [Effect.messageEmit c op (payloadToWsMessage pl)] := by
  have hsubs :
      (InternalWebSocket.check_message_updates (queuedRegs g op (x :: xs))).subscribers
        = [(g, (x :: xs).foldl (fun su cb => su.subscribe op cb) Subscriber.new)] := by
    show ((x :: xs).map fun cb => ((g, op, cb) : Nat × OpCode × CallbackId)).foldl
        (fun subs r => InternalWebSocket.registerMessage subs r.1 r.2.1 r.2.2) []
      = [(g, (x :: xs).foldl (fun su cb => su.subscribe op cb) Subscriber.new)]
    simp only [List.map_cons, List.foldl_cons]
    have hfirst : InternalWebSocket.registerMessage [] g op x
        = [(g, Subscriber.new.subscribe op x)] := rfl
    rw [hfirst, foldl_registerMessage_single]
  have hlook : lookupCallback op
      ((x :: xs).foldl (fun su cb => su.subscribe op cb) Subscriber.new).on_ws_message
        = some c :=
    foldl_subscribe_getLast op (x :: xs) c hlast Subscriber.new
  have hlook2 := hlook
  simp only [List.foldl_cons] at hlook2
  constructor
  · simp [boundCallback, hsubs, lookupGroup, hlook, hlook2]
  · simp only [InternalWebSocket.on_message, hdec]
    simp [hsubs, hlook, hlook2]

/-- Witness for C3: three registrations with callback ids 1, 2, 3 for
group 0 and opcode 5; after the drain the bound callback is 3, and a
dispatch of the frame with opcode 5 and no payload fires callback 3
alone. -/
theorem last_registration_wins_witness :
    boundCallback (InternalWebSocket.check_message_updates (queuedRegs 0 5 [1, 2, 3])) 0 5
      = some 3 ∧
    ((queuedRegs 0 5 [1, 2, 3]).on_message rawOpcode5).2 =
      [Effect.messageEmit 3 5 (payloadToWsMessage none)] :=
  last_registration_wins 0 5 1 [2, 3] 3 rfl rawOpcode5 none rfl

/-- Claim C8: the envelope with opcode 5 (`OP_MESSAGE`) and the payload
with username "a", avatar "b" and content "c", encoded with
`serde_json::to_string` and decoded back with `serde_json::from_str`,
yields opcode 5 and a payload equal to the original value. -/
theorem envelope_roundtrip_message :
    decodeWrapping (encodeWrapping messageEnvelope) =
      some { opcode := OP_MESSAGE, payload := some messagePayload } := by rfl

/-- Counterexample to claim C6: delivering an `ADD_TRACK` payload that
lacks the required `url` field makes `MediaPlayer::update` call
`serde_json::from_value(..).unwrap()` on a failing result — the component
panics (result `none`) instead of treating the mismatch as per-message
and non-fatal. -/
theorem add_track_missing_field_panics :
    playerTwo.update (MediaPlayerEvent.addVideo (WebsocketMessage.Payload badVideoJson))
      = none := rfl

/-- Amended claim C6: a received message whose envelope decodes but whose
payload does not match the expected shape for its recognized opcode is
fatal to the handling component: both the media player's `AddVideo` path
and the chat room's message path panic on the mismatch. -/
theorem payload_mismatch_panics (s : MediaPlayer) (c : ChatRoom) (v w : Json)
    (hv : decodeVideo v = none) (hw : decodeChatMessage w = none) :
    s.update (MediaPlayerEvent.addVideo (WebsocketMessage.Payload v)) = none ∧
    ChatRoom.update c (WebsocketMessage.Payload w) = none := by
  constructor
  · simp [MediaPlayer.update, WebsocketMessage.unwrap_and_into, hv]
  · simp [ChatRoom.update, hw]

/-- Witness for the amended C6 at concrete mismatched payloads. -/
theorem payload_mismatch_panics_witness :
    playerTwo.update (MediaPlayerEvent.addVideo (WebsocketMessage.Payload badVideoJson)) = none ∧
    ChatRoom.update chatEmpty (WebsocketMessage.Payload badChatJson) = none :=
  payload_mismatch_panics playerTwo chatEmpty badVideoJson badChatJson rfl rfl

/-- Counterexample to claim C7: with an empty queue, handling `Next` with
publish=false calls `VecDeque::rotate_left(1)` on a deque of length 0,
which panics (result `none`) — the claimed rotation does not happen for
every queue state. -/
theorem next_on_empty_queue_panics :
    playerEmpty.update (MediaPlayerEvent.next false) = none := rfl

/-- Amended claim C7: for every state whose queue is non-empty, `Next`
with publish=false rotates the queue left by one and issues no publish
call, while `Next` with publish=true issues exactly one publish call
(`OP_NEXT`, no payload) and leaves the queue untouched; on an empty
queue the publish=false branch panics. -/
theorem next_rotates_locally_or_publishes (s : MediaPlayer) (v : Video) (vs : List Video)
    (h : s.videos = v :: vs) :
    s.update (MediaPlayerEvent.next false) = some ({ s with videos := vs ++ [v] }, [], true) ∧
    s.update (MediaPlayerEvent.next true) =
      some (s, [{ room_id := s.room_id, msg := { opcode := OP_NEXT, payload := none } }], true) := by
  constructor
  · simp [MediaPlayer.update, h, rotateLeftOne]
  · rfl

/-- Witness for the amended C7 at a two-track queue. -/
theorem next_rotates_locally_or_publishes_witness :
    playerTwo.update (MediaPlayerEvent.next false) =
      some ({ playerTwo with
              videos := [{ title := "t2", url := "u2" }] ++ [{ title := "t1", url := "u1" }] },
            [], true) ∧
    playerTwo.update (MediaPlayerEvent.next true) =
      some (playerTwo,
            [{ room_id := playerTwo.room_id, msg := { opcode := OP_NEXT, payload := none } }],
            true) :=
  next_rotates_locally_or_publishes playerTwo
    { title := "t1", url := "u1" } [{ title := "t2", url := "u2" }] rfl

/-- Claim C9: on a well-formed `SetBulkTracks` message, a local queue
strictly longer than the incoming list is left unchanged (and no
re-render is requested); otherwise the local queue is replaced
element-for-element, in order, by the incoming list. -/
theorem set_bulk_tracks_longest_wins (s : MediaPlayer) (v : Json) (bulk : BulkVideos)
    (h : decodeBulkVideos v = some bulk) :
    s.update (MediaPlayerEvent.setBulkTracks (WebsocketMessage.Payload v)) =
      some (if s.videos.length > bulk.videos.length then (s, [], false)
            else ({ s with videos := bulk.videos }, [], true)) := by
  simp [MediaPlayer.update, WebsocketMessage.unwrap_and_into, h]

/-- Witness for C9: a two-track queue receiving a one-track bulk list is
left unchanged. -/
theorem set_bulk_tracks_longest_wins_witness :
    playerTwo.update (MediaPlayerEvent.setBulkTracks
        (WebsocketMessage.Payload (encodeBulkVideos bulkOne))) =
      some (if playerTwo.videos.length > bulkOne.videos.length then (playerTwo, [], false)
            else ({ playerTwo with videos := bulkOne.videos }, [], true)) :=
  set_bulk_tracks_longest_wins playerTwo (encodeBulkVideos bulkOne) bulkOne rfl

/-- Claim C10: handling `SyncTracks` drains the whole local queue, in
order, into one published `SET_BULK_TRACKS` envelope, leaves the queue
empty, requests no re-render, and changes nothing else in the player
state. -/
theorem sync_tracks_drains_queue (s : MediaPlayer) :
    s.update MediaPlayerEvent.syncTracks =
      some ({ s with videos := [] },
            [{ room_id := s.room_id,
               msg := { opcode := OP_SET_BULK_TRACKS,
                        payload := some (encodeBulkVideos { videos := s.videos }) } }],
            false) := rfl
